import Mathlib

set_option maxRecDepth 8000

/-!
Verification of the conversation session manager of `src/script.js`
(browser chat widget for the L'Oréal product advisor).

The JavaScript program keeps a global message list `conversation`, a global
`userName`, two localStorage slots, and a rendered chat window.  We embed it
shallowly: the mutable globals plus the storage slots and the sequence of
`appendMessage` calls form a `SessionState`, and each event handler or helper
becomes a state-transforming function.  Browser-supplied values (the stored
string, `JSON.parse` results, the `fetch` outcome and the decoded response
body) are modelled by explicit data types that record exactly the observations
the program makes of them.
-/

namespace LorealChat

/-- A chat message: in `script.js` messages are plain objects with a string
`role` ("system" / "user" / "assistant" for program-created ones, but restored
ones may carry any string) and a string `content`. -/
structure Message where
  role : String
  content : String
deriving DecidableEq, Repr

/-- The system prompt literal of `script.js` line 12. -/
def systemPrompt : String :=
  "You are the L'Oréal Smart Product Advisor. Only answer questions about L'Oréal brands, products, skincare and haircare routines, and product recommendations from L'Oréal. If a user asks about topics outside this scope (including other brands, general medical/legal advice, politics, or unrelated topics), politely refuse with a short, friendly message such as: \"I'm sorry — I can only help with L'Oréal products and beauty routines. If you'd like, I can suggest L'Oréal alternatives or product recommendations.\" After refusing, always offer a helpful L'Oréal-focused alternative or redirect. Provide concise, factual product suggestions, recommended usage, ingredient considerations relevant to skin/hair type, and note regional availability when relevant. Do not invent endorsements, medical diagnoses, or claim regulatory approvals. Keep tone professional, helpful, and brand-consistent."

/-- The message the conversation starts with (`script.js` line 15). -/
def systemMessage : Message :=
  { role := "system", content := systemPrompt }

/-- Trimming bound (`script.js` line 24). -/
def MAX_CONVERSATION_MESSAGES : Nat := 40

/-- JavaScript whitespace: the code points matched by `\s` in a JS regular
expression and removed by `String.prototype.trim`. -/
def isSpaceJS (c : Char) : Bool :=
  c = ' ' || c = '\t' || c = '\n' || c = '\r' || c = '\x0b' || c = '\x0c' ||
  c = ' ' || c = ' ' ||
  (0x2000 ≤ c.toNat && c.toNat ≤ 0x200a) ||
  c = ' ' || c = ' ' || c = ' ' || c = ' ' ||
  c = '　' || c = '﻿'

/-- `String.prototype.trim`: strip JS whitespace from both ends
(`userInput.value.trim()`, `script.js` line 234). -/
def jsTrim (s : String) : String :=
  String.mk (((s.toList.dropWhile isSpaceJS).reverse.dropWhile isSpaceJS).reverse)

/-- JS `xs.slice(-n)` for an array: the final `min n xs.length` elements
(`script.js` line 91). -/
def sliceNegFrom (n : Nat) (xs : List Message) : List Message :=
  xs.drop (xs.length - n)

/-- `trimConversation` (`script.js` lines 88-93): keep the first message whose
role is "system" followed by the last `MAX_CONVERSATION_MESSAGES` non-system
messages.  When `find` yields no system message the JS array would begin with
an `undefined` slot; that state is unreachable in the program (initialisation
line 15, `loadState` lines 77-79 and trimming itself all keep a system message
in the conversation), and we return just the trimmed tail there. -/
def trimConversation (conversation : List Message) : List Message :=
  match conversation.find? (fun m => m.role == "system") with
  | some sys =>
      sys :: sliceNegFrom MAX_CONVERSATION_MESSAGES
        (conversation.filter (fun m => !(m.role == "system")))
  | none =>
      sliceNegFrom MAX_CONVERSATION_MESSAGES
        (conversation.filter (fun m => !(m.role == "system")))

/-- What the localStorage conversation slot holds, seen through the
observations `loadState` makes of it (`script.js` lines 74-81): `absent` is a
missing or empty (falsy) raw string, `malformed` a string on which `JSON.parse`
throws, `nonArray` a string parsing to JSON that is not an array, and
`arr ms` a string parsing to an array of messages.  An array element that is
not a role/content object behaves, for everything this program does with it
(reading `role`), like a message whose role is some string other than
"system", so `arr` also covers those. -/
inductive StoredConv where
  | absent : StoredConv
  | malformed : StoredConv
  | nonArray : StoredConv
  | arr : List Message → StoredConv
deriving DecidableEq, Repr

/-- The whole mutable state of the script: the two globals `conversation` and
`userName`, the two localStorage slots, and the list of `appendMessage` calls
made so far (CSS class of the bubble, text). -/
structure SessionState where
  conversation : List Message
  userName : String
  storedConv : StoredConv
  storedName : Option String
  rendered : List (String × String)
deriving DecidableEq, Repr

/-- `saveState` (`script.js` lines 57-67): persist the conversation (as a JSON
string that parses back to the same array) and the user name.  The
`try`/`catch` around storage writes only swallows quota errors; we model the
successful write. -/
def saveState (st : SessionState) : SessionState :=
  { st with storedConv := StoredConv.arr st.conversation,
            storedName := some st.userName }

/-- `appendMessage` (`script.js` lines 39-46), observed as the list of bubbles
added to the chat window. -/
def appendMessage (role text : String) (st : SessionState) : SessionState :=
  { st with rendered := st.rendered ++ [(role, text)] }

/-- The first half of `loadState` (`script.js` lines 72-73): adopt the stored
name when it is truthy (present and non-empty). -/
def loadName (st : SessionState) : SessionState :=
  match st.storedName with
  | some n => if n ≠ "" then { st with userName := n } else st
  | none => st

/-- The second half of `loadState` (`script.js` lines 74-82): a stored value
that is absent, fails to parse, is not an array or is an empty array leaves
the conversation untouched; a non-empty array without any system message gets
the system message prepended; any other array is installed verbatim. -/
def loadConv (st : SessionState) : SessionState :=
  match st.storedConv with
  | StoredConv.arr ms =>
      if ms.length ≠ 0 then
        if ms.any (fun m => m.role == "system") then
          { st with conversation := ms }
        else
          { st with conversation := systemMessage :: ms }
      else st
  | _ => st

/-- `loadState` (`script.js` lines 69-86): the name is read and assigned
before `JSON.parse` runs, so a parse failure aborts only the conversation
part; both failure kinds land in the `catch`, which does nothing further. -/
def loadState (st : SessionState) : SessionState :=
  loadConv (loadName st)

/-- The state at script start (`script.js` lines 15-27): fresh conversation
holding only the system message, empty user name, no bubbles; the storage
slots hold whatever the browser persisted earlier. -/
def initialState (sc : StoredConv) (sn : Option String) : SessionState :=
  { conversation := [systemMessage], userName := "",
    storedConv := sc, storedName := sn, rendered := [] }

/-! ### Name detection

`detectAndSaveUserName` (`script.js` lines 95-101) runs the regular expression
`(?:my name is|i am|i'm)\s+([A-Z][a-zA-Z\-']{1,30})` with the `i` flag over the
submitted text and, when it matches, stores the first capture group.  We embed
the regex directly: the three literal alternatives are mutually exclusive at
any start position (they disagree on their first two characters), `\s+` is
followed by a character that no whitespace character could satisfy, and
nothing follows the greedy capture, so leftmost scanning with maximal `\s+`
and a greedy bounded capture computes exactly the JS match. -/

/-- Case-insensitive character comparison, as the `i` flag canonicalises the
ASCII letters the pattern contains. -/
def charEqCI (a b : Char) : Bool :=
  a == b ||
  (65 ≤ a.toNat && a.toNat ≤ 90 && a.toNat + 32 == b.toNat) ||
  (65 ≤ b.toNat && b.toNat ≤ 90 && b.toNat + 32 == a.toNat)

/-- Match a literal pattern case-insensitively at the head of the input,
returning the rest of the input on success. -/
def matchLitCI : List Char → List Char → Option (List Char)
  | [], rest => some rest
  | _ :: _, [] => none
  | p :: ps, c :: cs => if charEqCI p c then matchLitCI ps cs else none

/-- The alternation `(?:my name is|i am|i'm)` tried at the current position. -/
def matchIntro (cs : List Char) : Option (List Char) :=
  (matchLitCI ("my name is".toList) cs).or
    ((matchLitCI ("i am".toList) cs).or (matchLitCI ("i\x27m".toList) cs))

/-- `[A-Z]` under the `i` flag: any ASCII letter. -/
def isAsciiLetter (c : Char) : Bool :=
  (65 ≤ c.toNat && c.toNat ≤ 90) || (97 ≤ c.toNat && c.toNat ≤ 122)

/-- The character class of the capture tail: ASCII letters, hyphen,
apostrophe. -/
def isNameChar (c : Char) : Bool :=
  isAsciiLetter c || c = '-' || c = '\x27'

/-- Greedy match of at most `n` name characters. -/
def takeNameChars : Nat → List Char → List Char
  | 0, _ => []
  | _, [] => []
  | n + 1, c :: cs => if isNameChar c then c :: takeNameChars n cs else []

/-- The whole pattern tried at one start position: intro literal, `\s+`, then
the capture `[A-Z][a-zA-Z\-']` with one to thirty tail characters.  Returns
the capture group. -/
def matchNameAt (cs : List Char) : Option String :=
  match matchIntro cs with
  | none => none
  | some rest =>
      if (rest.takeWhile isSpaceJS).isEmpty then none
      else
        match rest.dropWhile isSpaceJS with
        | [] => none
        | c :: cs2 =>
            if isAsciiLetter c then
              let tail := takeNameChars 30 cs2
              if tail.isEmpty then none else some (String.mk (c :: tail))
            else none

/-- Leftmost match of the name pattern over the text: the value of `m[1]` in
`detectAndSaveUserName`, or `none` when the regex does not match. -/
def findNameMatch : List Char → Option String
  | [] => none
  | c :: cs => (matchNameAt (c :: cs)).or (findNameMatch cs)

/-- `detectAndSaveUserName` (`script.js` lines 95-101): on a truthy captured
name, overwrite `userName` and persist. -/
def detectAndSaveUserName (text : String) (st : SessionState) : SessionState :=
  match findNameMatch text.toList with
  | some name => if name ≠ "" then saveState { st with userName := name } else st
  | none => st

/-! ### The remote call -/

/-- One element of the response's `choices` array, observed through the three
optional-chained fields the extraction reads (`script.js` lines 168-172):
`choice?.message?.content`, `choice?.delta?.content`, `choice?.text`.  A field
that is absent, null or not reached through an object is `none`. -/
structure Choice where
  messageContent : Option String
  deltaContent : Option String
  text : Option String
deriving DecidableEq, Repr

/-- The `??` chain over one choice (`script.js` lines 168-172 and 181-185):
first non-nullish of the three fields, else null. -/
def Choice.extract (c : Choice) : Option String :=
  (c.messageContent.or c.deltaContent).or c.text

/-- The `data.body` field (`script.js` lines 176-189): a string on which
`JSON.parse` throws (the catch ignores it), or a value — a parsed string or an
object — through which `parsed?.choices?.[0]` is read. -/
inductive JsBody where
  | malformedStr : JsBody
  | parsed : Option (List Choice) → JsBody
deriving DecidableEq, Repr

/-- The provider error object (`script.js` lines 193-195): `data.error.message`
(possibly absent) and `JSON.stringify(data.error)`. -/
structure ErrorObj where
  message : Option String
  stringified : String
deriving DecidableEq, Repr

/-- The decoded JSON response body, observed through the fields the program
reads: `data?.choices`, `data.body` (its falsy values folded into `none`), and
`data?.error` (likewise). -/
structure ApiData where
  choices : Option (List Choice)
  body : Option JsBody
  error : Option ErrorObj
deriving DecidableEq, Repr

/-- JS truthiness of the `assistantMessage` variable (a string or null): null
and the empty string are falsy. -/
def truthyStr : Option String → Bool
  | some s => s ≠ ""
  | none => false

/-- The value of the local `assistantMessage` after the two extraction steps
(`script.js` lines 164-189): the `??` chain over `choices[0]` when the array
is non-empty; and when that result is falsy and a `body` field is present, the
same chain over the wrapped response (a body string that fails to parse leaves
the variable unchanged). -/
def extractAssistant (data : ApiData) : Option String :=
  let fromChoices : Option String :=
    match data.choices with
    | some (c :: _) => c.extract
    | _ => none
  if truthyStr fromChoices then fromChoices
  else
    match data.body with
    | some JsBody.malformedStr => fromChoices
    | some (JsBody.parsed choices) =>
        match choices with
        | some (c :: _) => c.extract
        | _ => none
    | none => fromChoices

/-- The `fetch` response as the program observes it: `res.ok`, `res.status`,
`res.text()` (read only for the error message) and `res.json()`, which either
decodes to an `ApiData` or rejects with a `SyntaxError` carrying a message. -/
structure HttpResponse where
  ok : Bool
  status : Nat
  bodyText : String
  json : Except String ApiData
deriving Repr

/-- The outcome of the network call: `fetch` rejects (a `TypeError` with the
given message), or resolves to a response. -/
inductive FetchOutcome where
  | reject : String → FetchOutcome
  | response : HttpResponse → FetchOutcome
deriving Repr

/-- A thrown JS error as the catch block inspects it (`script.js` lines
213-214): whether it is a `TypeError`, and its `message`. -/
structure JsError where
  isTypeError : Bool
  message : String
deriving DecidableEq, Repr

/-- Case-insensitive prefix test over characters. -/
def prefixCI : List Char → List Char → Bool
  | [], _ => true
  | _ :: _, [] => false
  | p :: ps, c :: cs => charEqCI p c && prefixCI ps cs

/-- Case-insensitive substring test over characters. -/
def containsCI (pat : List Char) : List Char → Bool
  | [] => pat.isEmpty
  | c :: cs => prefixCI pat (c :: cs) || containsCI pat cs

/-- The test `/failed to fetch/i.test(err.message)` (`script.js` line 214). -/
def testFailedToFetch (s : String) : Bool :=
  containsCI ("failed to fetch".toList) s.toList

/-- The user-visible text composed by the catch block (`script.js` lines
209-225): the network wording (depending on whether a worker URL is
configured) for a `TypeError` or a message matching `/failed to fetch/i`,
otherwise `Error: <message>` for a non-empty message, otherwise the generic
apology. -/
def friendlyMessage (workerUrl : Option String) (e : JsError) : String :=
  if e.isTypeError || testFailedToFetch e.message then
    match workerUrl with
    | some u =>
        "Network error: could not reach the Cloudflare Worker at " ++ u ++
        ". Make sure the worker is deployed and that CORS/OPENAI_API_KEY are configured. See console for details."
    | none =>
        "Network error: could not reach the OpenAI API. Check your internet connection and API key configuration. See console for details."
  else if e.message ≠ "" then "Error: " ++ e.message
  else "Sorry — there was an error getting a response."

/-- The error thrown when no assistant text was found (`script.js` lines
191-203): the provider's error object when present (its `message` when truthy,
else its stringification), otherwise the fixed no-assistant-message error. -/
def noAssistantError (data : ApiData) : JsError :=
  match data.error with
  | some eo =>
      { isTypeError := false,
        message := "OpenAI error: " ++
          (match eo.message with
           | some m => if m ≠ "" then m else eo.stringified
           | none => eo.stringified) }
  | none =>
      { isTypeError := false,
        message := "No assistant message in response — see console for full API response" }

/-- `sendMessageToOpenAI` (`script.js` lines 111-229).  The function first
trims the live conversation in place (line 114) and sends it; we take the
network outcome as a parameter.  On a response that is not `ok`, an
undecodable JSON body, or a decoded body with no truthy assistant text, the
thrown error is caught and one error bubble rendered — nothing is appended to
the conversation and nothing persisted.  On success the assistant message is
appended, the state persisted, and one bubble rendered.  (`setLoading` only
toggles the send button and is not modelled.) -/
def sendMessageToOpenAI (workerUrl : Option String) (outcome : FetchOutcome)
    (st : SessionState) : SessionState :=
  let st1 := { st with conversation := trimConversation st.conversation }
  let fail : JsError → SessionState := fun e =>
    appendMessage "ai" (friendlyMessage workerUrl e) st1
  match outcome with
  | FetchOutcome.reject m => fail { isTypeError := true, message := m }
  | FetchOutcome.response res =>
      if !res.ok then
        fail { isTypeError := false,
               message := "API error: " ++ toString res.status ++ " " ++ res.bodyText }
      else
        match res.json with
        | Except.error m => fail { isTypeError := false, message := m }
        | Except.ok data =>
            match extractAssistant data with
            | some a =>
                if a ≠ "" then
                  let st2 := { st1 with
                    conversation := st1.conversation ++ [{ role := "assistant", content := a }] }
                  appendMessage "ai" a (saveState st2)
                else fail (noAssistantError data)
            | none => fail (noAssistantError data)

/-- The form submit handler (`script.js` lines 232-249): trim the input; a
falsy (empty) result is a no-op.  Otherwise push the user message, run name
detection, persist, render the user bubble, and run the remote call.
(Clearing the input box and updating the latest-question label touch only the
DOM.) -/
def submitTurn (workerUrl : Option String) (input : String)
    (outcome : FetchOutcome) (st : SessionState) : SessionState :=
  let text := jsTrim input
  if text = "" then st
  else
    let st1 := { st with
      conversation := st.conversation ++ [{ role := "user", content := text }] }
    let st2 := detectAndSaveUserName text st1
    let st3 := saveState st2
    let st4 := appendMessage "user" text st3
    sendMessageToOpenAI workerUrl outcome st4

/-! ### Derived classification of outcomes

`outcomeFails` names the runs of `sendMessageToOpenAI` that end in the catch
block: the branch conditions of lines 155 (non-success status), 160 (body that
is not JSON), 191 (no truthy assistant text, covering both the provider error
object and the unexpected shape) and 209 (rejected fetch). -/
def outcomeFails (o : FetchOutcome) : Bool :=
  match o with
  | FetchOutcome.reject _ => true
  | FetchOutcome.response res =>
      !res.ok ||
      (match res.json with
       | Except.error _ => true
       | Except.ok data => !truthyStr (extractAssistant data))

/-! ### Helper lemmas -/

theorem MAX_CONVERSATION_MESSAGES_eq : MAX_CONVERSATION_MESSAGES = 40 := rfl

/-- A list's length splits into the messages satisfying a predicate and the
rest. -/
theorem length_eq_countP_add (p : Message → Bool) (l : List Message) :
    l.length = l.countP p + l.countP (fun a => !(p a)) := by
  induction l with
  | nil => simp
  | cons a l ih =>
      cases h : p a <;> simp [List.countP_cons, h, ih] <;> omega

/-- No message of the filtered-out kind survives in any `drop` of the
filtered list. -/
theorem countP_drop_filter (p : Message → Bool) (l : List Message) (n : Nat) :
    ((l.filter (fun m => !(p m))).drop n).countP p = 0 := by
  rw [List.countP_eq_zero]
  intro a ha
  have hmem : a ∈ l.filter (fun m => !(p m)) := List.drop_subset _ _ ha
  have := (List.mem_filter.mp hmem).2
  simp at this
  simp [this]

/-- Unfolding `trimConversation` when a system message is present. -/
theorem trimConversation_eq_of_find (conv : List Message) (s : Message)
    (h : conv.find? (fun m => m.role == "system") = some s) :
    trimConversation conv =
      s :: (conv.filter (fun m => !(m.role == "system"))).drop
        ((conv.filter (fun m => !(m.role == "system"))).length -
          MAX_CONVERSATION_MESSAGES) := by
  unfold trimConversation
  rw [h]
  rfl

/-- When the non-system part is within the bound, trimming keeps all of it. -/
theorem trimConversation_small (conv : List Message) (s : Message)
    (h : conv.find? (fun m => m.role == "system") = some s)
    (hk : (conv.filter (fun m => !(m.role == "system"))).length ≤
        MAX_CONVERSATION_MESSAGES) :
    trimConversation conv = s :: conv.filter (fun m => !(m.role == "system")) := by
  rw [trimConversation_eq_of_find conv s h, Nat.sub_eq_zero_of_le hk,
    List.drop_zero]

/-- Name detection never touches the conversation. -/
theorem detect_conversation (t : String) (st : SessionState) :
    (detectAndSaveUserName t st).conversation = st.conversation := by
  unfold detectAndSaveUserName
  cases findNameMatch t.toList with
  | none => rfl
  | some name =>
      by_cases h : name = "" <;> simp [h, saveState]

/-- Every failing run of `sendMessageToOpenAI` trims the conversation, leaves
the rest of the state alone and renders exactly one "ai" bubble. -/
theorem send_fail_eq (workerUrl : Option String) (o : FetchOutcome)
    (st : SessionState) (h : outcomeFails o = true) :
    ∃ msg, sendMessageToOpenAI workerUrl o st =
      { st with conversation := trimConversation st.conversation,
                rendered := st.rendered ++ [("ai", msg)] } := by
  cases o with
  | reject m => exact ⟨_, rfl⟩
  | response res =>
      by_cases hok : res.ok = true
      · cases hjson : res.json with
        | error m =>
            refine ⟨friendlyMessage workerUrl { isTypeError := false, message := m }, ?_⟩
            simp [sendMessageToOpenAI, hok, hjson, appendMessage]
        | ok data =>
            have hext : truthyStr (extractAssistant data) = false := by
              simp [outcomeFails, hok, hjson] at h
              exact h
            cases hassist : extractAssistant data with
            | none =>
                refine ⟨friendlyMessage workerUrl (noAssistantError data), ?_⟩
                simp [sendMessageToOpenAI, hok, hjson, hassist, appendMessage]
            | some a =>
                have ha : a = "" := by
                  rw [hassist] at hext
                  simpa [truthyStr] using hext
                refine ⟨friendlyMessage workerUrl (noAssistantError data), ?_⟩
                simp [sendMessageToOpenAI, hok, hjson, hassist, ha, appendMessage]
      · refine ⟨friendlyMessage workerUrl
          ⟨false, "API error: " ++ toString res.status ++ " " ++ res.bodyText⟩, ?_⟩
        simp [sendMessageToOpenAI, hok, appendMessage]

/-- Every successful run appends one non-empty assistant message to the
trimmed conversation, persists exactly that list (and the user name), and
renders the assistant bubble. -/
theorem send_succ_eq (workerUrl : Option String) (o : FetchOutcome)
    (st : SessionState) (h : outcomeFails o = false) :
    ∃ a, a ≠ "" ∧ sendMessageToOpenAI workerUrl o st =
      { st with
          conversation := trimConversation st.conversation ++
            [{ role := "assistant", content := a }],
          storedConv := StoredConv.arr (trimConversation st.conversation ++
            [{ role := "assistant", content := a }]),
          storedName := some st.userName,
          rendered := st.rendered ++ [("ai", a)] } := by
  cases o with
  | reject m => simp [outcomeFails] at h
  | response res =>
      have hok : res.ok = true := by
        by_contra hok
        have hok2 : res.ok = false := Bool.eq_false_iff.mpr hok
        simp [outcomeFails, hok2] at h
      cases hjson : res.json with
      | error m => simp [outcomeFails, hok, hjson] at h
      | ok data =>
          have hext : truthyStr (extractAssistant data) = true := by
            simp [outcomeFails, hok, hjson] at h
            exact h
          cases hassist : extractAssistant data with
          | none => rw [hassist] at hext; simp [truthyStr] at hext
          | some a =>
              have ha : a ≠ "" := by
                rw [hassist] at hext
                simpa [truthyStr] using hext
              refine ⟨a, ha, ?_⟩
              simp [sendMessageToOpenAI, hok, hjson, hassist, ha,
                appendMessage, saveState]

/-- Reading the stored name never touches the conversation. -/
theorem loadName_conversation (st : SessionState) :
    (loadName st).conversation = st.conversation := by
  unfold loadName
  cases st.storedName with
  | none => rfl
  | some n => by_cases h : n = "" <;> simp [h]

/-- Reading the stored name never touches the stored conversation slot. -/
theorem loadName_storedConv (st : SessionState) :
    (loadName st).storedConv = st.storedConv := by
  unfold loadName
  cases st.storedName with
  | none => rfl
  | some n => by_cases h : n = "" <;> simp [h]

/-- The conversation `loadConv` produces from a stored array. -/
theorem loadConv_conversation_arr (st : SessionState) (ms : List Message)
    (hsc : st.storedConv = StoredConv.arr ms) :
    (loadConv st).conversation =
      if ms.length ≠ 0 then
        (if ms.any (fun m => m.role == "system") then ms
         else systemMessage :: ms)
      else st.conversation := by
  unfold loadConv
  rw [hsc]
  dsimp only
  by_cases hlen : ms.length ≠ 0
  · rw [if_pos hlen, if_pos hlen]
    by_cases hany : ms.any (fun m => m.role == "system") = true
    · rw [if_pos hany, if_pos hany]
    · rw [if_neg hany, if_neg hany]
  · rw [if_neg hlen, if_neg hlen]

/-- `loadConv` is the identity when the stored value is not an array. -/
theorem loadConv_not_arr (st : SessionState)
    (h : ∀ ms, st.storedConv ≠ StoredConv.arr ms) :
    loadConv st = st := by
  unfold loadConv
  cases hsc : st.storedConv with
  | arr ms => exact absurd hsc (h ms)
  | absent => rfl
  | malformed => rfl
  | nonArray => rfl

/-- The conversation `loadState` produces from a stored array, whatever the
stored name slot holds. -/
theorem loadState_conversation_arr (ms : List Message) (st : SessionState)
    (hsc : st.storedConv = StoredConv.arr ms) :
    (loadState st).conversation =
      if ms.length ≠ 0 then
        (if ms.any (fun m => m.role == "system") then ms
         else systemMessage :: ms)
      else st.conversation := by
  unfold loadState
  rw [loadConv_conversation_arr (loadName st) ms
    (by rw [loadName_storedConv, hsc]), loadName_conversation]

/-- `loadState` leaves the conversation alone when the stored value is not an
array. -/
theorem loadState_conversation_other (st : SessionState)
    (h : ∀ ms, st.storedConv ≠ StoredConv.arr ms) :
    (loadState st).conversation = st.conversation := by
  unfold loadState
  rw [loadConv_not_arr (loadName st)
    (by intro ms; rw [loadName_storedConv]; exact h ms), loadName_conversation]

/-- Unfolding name detection when the pattern matches with a non-empty
capture. -/
theorem detect_eq_some (t n : String) (st : SessionState)
    (h : findNameMatch t.toList = some n) (hn : n ≠ "") :
    detectAndSaveUserName t st = saveState { st with userName := n } := by
  unfold detectAndSaveUserName
  rw [h]
  simp [hn]

/-- Unfolding name detection when the pattern does not match. -/
theorem detect_eq_none (t : String) (st : SessionState)
    (h : findNameMatch t.toList = none) :
    detectAndSaveUserName t st = st := by
  unfold detectAndSaveUserName
  rw [h]

/-! ### Fixtures for witnesses and counterexamples -/

/-- A short system message (claims about trimming and restoring never inspect
the prompt's text). -/
def mSys : Message := { role := "system", content := "p" }

/-- A short user message. -/
def mUser : Message := { role := "user", content := "hi" }

/-! ### The claims -/

/-- C3: for every conversation containing a system message (the first such
message being `s`) and `k` non-system messages, trimming yields `s` followed
by the final `min 40 k` non-system messages: the head is the system message,
the result holds exactly one system message, its length is `1 + min 40 k`,
and the retained non-system messages are a suffix of the original non-system
subsequence — the most recent ones, in their original relative order. -/
theorem trimConversation_spec (conv : List Message) (s : Message)
    (h : conv.find? (fun m => m.role == "system") = some s) :
    trimConversation conv =
      s :: (conv.filter (fun m => !(m.role == "system"))).drop
        ((conv.filter (fun m => !(m.role == "system"))).length -
          MAX_CONVERSATION_MESSAGES) ∧
    s.role = "system" ∧
    (trimConversation conv).length =
      1 + min MAX_CONVERSATION_MESSAGES
        (conv.filter (fun m => !(m.role == "system"))).length ∧
    (trimConversation conv).countP (fun m => m.role == "system") = 1 ∧
    List.IsSuffix ((trimConversation conv).drop 1)
      (conv.filter (fun m => !(m.role == "system"))) := by
  have hrole : s.role = "system" := by
    have := List.find?_some h
    simpa using this
  have htrim := trimConversation_eq_of_find conv s h
  refine ⟨htrim, hrole, ?_, ?_, ?_⟩
  · rw [htrim]
    simp [List.length_drop]
    omega
  · rw [htrim]
    rw [List.countP_cons]
    simp [hrole, countP_drop_filter (fun m => m.role == "system") conv]
  · rw [htrim]
    simpa using List.drop_suffix _ _

/-- C3 witness: trimming the two-message conversation `[mSys, mUser]`. -/
theorem trimConversation_spec_witness :
    trimConversation [mSys, mUser] =
      mSys :: ([mSys, mUser].filter (fun m => !(m.role == "system"))).drop
        (([mSys, mUser].filter (fun m => !(m.role == "system"))).length -
          MAX_CONVERSATION_MESSAGES) ∧
    mSys.role = "system" ∧
    (trimConversation [mSys, mUser]).length =
      1 + min MAX_CONVERSATION_MESSAGES
        ([mSys, mUser].filter (fun m => !(m.role == "system"))).length ∧
    (trimConversation [mSys, mUser]).countP (fun m => m.role == "system") = 1 ∧
    List.IsSuffix ((trimConversation [mSys, mUser]).drop 1)
      ([mSys, mUser].filter (fun m => !(m.role == "system"))) :=
  trimConversation_spec [mSys, mUser] mSys (by decide)

/-- C6: restoring from a stored conversation value that is not parseable as
JSON leaves the fresh conversation holding only the system message (and, the
operation being a total function of the state, it cannot crash), whatever the
stored name slot holds. -/
theorem loadState_malformed_fresh (sn : Option String) :
    (loadState (initialState StoredConv.malformed sn)).conversation =
      [systemMessage] := by
  rw [loadState_conversation_other]
  · rfl
  · intro ms h
    simp [initialState] at h

/-- C7: a submitted input that is empty or all whitespace leaves the session
state — conversation, user name, both storage slots and the rendered page —
exactly as it was, for every configured endpoint and every possible network
outcome (in particular no message is appended, nothing is persisted, and the
remote call's outcome is never consulted). -/
theorem submitTurn_blank_noop (workerUrl : Option String) (input : String)
    (o : FetchOutcome) (st : SessionState)
    (h : input.toList.all isSpaceJS = true) :
    submitTurn workerUrl input o st = st := by
  have htrim : jsTrim input = "" := by
    have h1 : input.toList.dropWhile isSpaceJS = [] := by
      rw [List.dropWhile_eq_nil_iff]
      intro x hx
      exact (List.all_eq_true.mp h) x hx
    unfold jsTrim
    rw [h1]
    decide
  simp [submitTurn, htrim]

/-- C7 witness: submitting a whitespace-only input over the fresh state. -/
theorem submitTurn_blank_noop_witness :
    (" \t\n ".toList.all isSpaceJS = true) ∧
    submitTurn none " \t\n " (FetchOutcome.reject "x")
        (initialState StoredConv.absent none) =
      initialState StoredConv.absent none :=
  ⟨by decide, submitTurn_blank_noop none " \t\n " (FetchOutcome.reject "x")
    (initialState StoredConv.absent none) (by decide)⟩

/-- C2 counterexample: a persisted array that holds a system message away from
the first position is restored verbatim, so after restore the first element
has role "user" — the unconditional "after restore the first element always
has role system" half of the claim is false. -/
theorem loadState_first_not_system_counterexample :
    (loadState (initialState
        (StoredConv.arr [{ role := "user", content := "a" },
          { role := "system", content := "s" }]) none)).conversation =
      [{ role := "user", content := "a" },
        { role := "system", content := "s" }] ∧
    ((loadState (initialState
        (StoredConv.arr [{ role := "user", content := "a" },
          { role := "system", content := "s" }]) none)).conversation.head?.map
      (fun m => m.role)) = some "user" := by
  decide

/-- C2 (amended): restoring the initial session from a persisted non-empty
array with no system message yields the system message followed by the
persisted messages in order; and after restore the first element has role
system provided that a persisted non-empty array containing a system message
carries it as its first element (a persisted array with a system message in
any later position is installed verbatim). -/
theorem loadState_restore_spec :
    (∀ (ms : List Message) (sn : Option String),
      ms ≠ [] →
      ms.all (fun m => !(m.role == "system")) = true →
      (loadState (initialState (StoredConv.arr ms) sn)).conversation =
        systemMessage :: ms) ∧
    (∀ (sc : StoredConv) (sn : Option String),
      (∀ ms, sc = StoredConv.arr ms → ms ≠ [] →
        ms.any (fun m => m.role == "system") = true →
        ms.head?.map (fun m => m.role) = some "system") →
      ((loadState (initialState sc sn)).conversation.head?.map
        (fun m => m.role)) = some "system") := by
  constructor
  · intro ms sn hne hnosys
    have hany : ms.any (fun m => m.role == "system") = false := by
      rw [List.any_eq_false]
      intro m hm
      have := (List.all_eq_true.mp hnosys) m hm
      simpa using this
    have hlen : ms.length ≠ 0 := by
      cases ms with
      | nil => exact absurd rfl hne
      | cons a l => simp
    rw [loadState_conversation_arr ms _ rfl]
    simp [hlen, hany]
  · intro sc sn hside
    cases sc with
    | arr ms =>
        rw [loadState_conversation_arr ms _ rfl]
        by_cases hlen : ms.length = 0
        · simp [hlen, initialState, systemMessage]
        · by_cases hany : ms.any (fun m => m.role == "system") = true
          · have hne : ms ≠ [] := by
              intro hh
              rw [hh] at hlen
              exact hlen rfl
            have := hside ms rfl hne hany
            simp [hlen, hany]
            simpa using this
          · have hany2 : ms.any (fun m => m.role == "system") = false :=
              Bool.eq_false_iff.mpr hany
            simp [hlen, hany2, systemMessage]
    | absent =>
        rw [loadState_conversation_other _ (by intro ms h; simp [initialState] at h)]
        simp [initialState, systemMessage]
    | malformed =>
        rw [loadState_conversation_other _ (by intro ms h; simp [initialState] at h)]
        simp [initialState, systemMessage]
    | nonArray =>
        rw [loadState_conversation_other _ (by intro ms h; simp [initialState] at h)]
        simp [initialState, systemMessage]

/-- C8: submitting "Hi, I'm Dana" sets the identity — the `userName` global
and the persisted name slot — to "Dana"; submitting "What products do you
have?" changes nothing at all; and whenever a later input yields a detected
name, that value overwrites whatever any earlier input had stored: the last
detected value wins. -/
theorem detectAndSaveUserName_spec (st st2 : SessionState) (t1 t2 : String)
    (n2 : String) (h2 : findNameMatch t2.toList = some n2) (hn2 : n2 ≠ "") :
    (detectAndSaveUserName "Hi, I\x27m Dana" st).userName = "Dana" ∧
    (detectAndSaveUserName "Hi, I\x27m Dana" st).storedName = some "Dana" ∧
    detectAndSaveUserName "What products do you have?" st2 = st2 ∧
    (detectAndSaveUserName t2 (detectAndSaveUserName t1 st)).userName = n2 := by
  have hdana : findNameMatch ("Hi, I\x27m Dana".toList) = some "Dana" := by
    decide
  have hwhat : findNameMatch ("What products do you have?".toList) = none := by
    decide
  refine ⟨?_, ?_, ?_, ?_⟩
  · rw [detect_eq_some _ _ _ hdana (by decide)]
    rfl
  · rw [detect_eq_some _ _ _ hdana (by decide)]
    rfl
  · exact detect_eq_none _ _ hwhat
  · rw [detect_eq_some _ _ _ h2 hn2]
    rfl

/-- C8 witness: a session over the fresh state in which "my name is Ana" and
then "i am Zoe" are submitted — "Zoe" wins. -/
theorem detectAndSaveUserName_spec_witness :
    (findNameMatch ("i am Zoe".toList) = some "Zoe") ∧ ("Zoe" ≠ "") ∧
    ((detectAndSaveUserName "Hi, I\x27m Dana"
        (initialState StoredConv.absent none)).userName = "Dana" ∧
      (detectAndSaveUserName "Hi, I\x27m Dana"
        (initialState StoredConv.absent none)).storedName = some "Dana" ∧
      detectAndSaveUserName "What products do you have?"
          (initialState StoredConv.absent none) =
        initialState StoredConv.absent none ∧
      (detectAndSaveUserName "i am Zoe" (detectAndSaveUserName "my name is Ana"
        (initialState StoredConv.absent none))).userName = "Zoe") :=
  ⟨by decide, by decide,
    detectAndSaveUserName_spec (initialState StoredConv.absent none)
      (initialState StoredConv.absent none) "my name is Ana" "i am Zoe" "Zoe"
      (by decide) (by decide)⟩

/-- With non-blank input the submit handler pushes the user message (name
detection, persistence and rendering leave the conversation alone) and hands
the resulting state to the remote call. -/
theorem submitTurn_eq (workerUrl : Option String) (input : String)
    (o : FetchOutcome) (st : SessionState) (h : jsTrim input ≠ "") :
    ∃ st4 : SessionState,
      submitTurn workerUrl input o st = sendMessageToOpenAI workerUrl o st4 ∧
      st4.conversation = st.conversation ++
        [{ role := "user", content := jsTrim input }] := by
  unfold submitTurn
  dsimp only
  rw [if_neg h]
  refine ⟨_, rfl, ?_⟩
  simp [appendMessage, saveState, detect_conversation]

/-- C5: on a response with a non-success HTTP status — and likewise on every
other failing outcome (rejected fetch / network failure, undecodable body,
missing assistant text, provider error object) — the remote call returns
normally (it is a total function into session states, nothing escapes the
catch) and produces exactly one assistant-authored ("ai") error bubble; the
conversation is merely trimmed and everything else is untouched, so the
session is intact for the next turn. -/
theorem send_error_single_message (workerUrl : Option String) (o : FetchOutcome)
    (st : SessionState) (h : outcomeFails o = true) :
    ∃ msg, sendMessageToOpenAI workerUrl o st =
      { st with conversation := trimConversation st.conversation,
                rendered := st.rendered ++ [("ai", msg)] } :=
  send_fail_eq workerUrl o st h

/-- The HTTP 500 response of claim C5. -/
def resp500 : HttpResponse :=
  { ok := false, status := 500, bodyText := "Internal Server Error",
    json := Except.error "unexpected token" }

/-- C5 witness: an HTTP 500 over the fresh session. -/
theorem send_error_single_message_witness :
    outcomeFails (FetchOutcome.response resp500) = true ∧
    ∃ msg, sendMessageToOpenAI none (FetchOutcome.response resp500)
        (initialState StoredConv.absent none) =
      { initialState StoredConv.absent none with
          conversation :=
            trimConversation (initialState StoredConv.absent none).conversation,
          rendered := (initialState StoredConv.absent none).rendered ++
            [("ai", msg)] } :=
  ⟨by decide, send_error_single_message none (FetchOutcome.response resp500)
    (initialState StoredConv.absent none) (by decide)⟩

/-- C9: the trim at the start of the remote call is applied to the live
conversation itself, not to a transmission-only copy: after every call the
session's conversation is exactly the trimmed list (plus, on success, the one
assistant reply), so messages beyond the bound are gone from all future
context; and the persisted slot afterwards is either untouched (failure) or
exactly the new trimmed live list (success), so they are gone from
subsequently persisted state as well. -/
theorem send_trims_in_place (workerUrl : Option String) (o : FetchOutcome)
    (st : SessionState) :
    ((sendMessageToOpenAI workerUrl o st).conversation =
        trimConversation st.conversation ∧
      (sendMessageToOpenAI workerUrl o st).storedConv = st.storedConv) ∨
    (∃ a, (sendMessageToOpenAI workerUrl o st).conversation =
        trimConversation st.conversation ++
          [{ role := "assistant", content := a }] ∧
      (sendMessageToOpenAI workerUrl o st).storedConv =
        StoredConv.arr ((sendMessageToOpenAI workerUrl o st).conversation)) := by
  cases hf : outcomeFails o with
  | true =>
      obtain ⟨msg, hmsg⟩ := send_fail_eq workerUrl o st hf
      left
      rw [hmsg]
      exact ⟨rfl, rfl⟩
  | false =>
      obtain ⟨a, ha, hmsg⟩ := send_succ_eq workerUrl o st hf
      right
      exact ⟨a, by rw [hmsg], by rw [hmsg]⟩

/-- C10: on every failing outcome of the remote call no message of any role
enters the conversation and the persisted state is not rewritten — the
conversation after the call is exactly the trim of the conversation before
it, both storage slots and the user name are unchanged, and the error text
appears only as a rendered bubble. -/
theorem send_failure_frame (workerUrl : Option String) (o : FetchOutcome)
    (st : SessionState) (h : outcomeFails o = true) :
    (sendMessageToOpenAI workerUrl o st).conversation =
      trimConversation st.conversation ∧
    (sendMessageToOpenAI workerUrl o st).storedConv = st.storedConv ∧
    (sendMessageToOpenAI workerUrl o st).storedName = st.storedName ∧
    (sendMessageToOpenAI workerUrl o st).userName = st.userName ∧
    ∃ msg, (sendMessageToOpenAI workerUrl o st).rendered =
      st.rendered ++ [("ai", msg)] := by
  obtain ⟨msg, hmsg⟩ := send_fail_eq workerUrl o st h
  rw [hmsg]
  exact ⟨rfl, rfl, rfl, rfl, msg, rfl⟩

/-- A mid-session state: one completed turn, both slots persisted. -/
def stTwo : SessionState :=
  { conversation := [systemMessage, mUser], userName := "u",
    storedConv := StoredConv.arr [systemMessage, mUser], storedName := some "u",
    rendered := [("user", "hi")] }

/-- C10 witness: a rejected fetch (network failure) over a mid-session
state. -/
theorem send_failure_frame_witness :
    outcomeFails (FetchOutcome.reject "Failed to fetch") = true ∧
    ((sendMessageToOpenAI none (FetchOutcome.reject "Failed to fetch")
        stTwo).conversation = trimConversation stTwo.conversation ∧
      (sendMessageToOpenAI none (FetchOutcome.reject "Failed to fetch")
        stTwo).storedConv = stTwo.storedConv ∧
      (sendMessageToOpenAI none (FetchOutcome.reject "Failed to fetch")
        stTwo).storedName = stTwo.storedName ∧
      (sendMessageToOpenAI none (FetchOutcome.reject "Failed to fetch")
        stTwo).userName = stTwo.userName ∧
      ∃ msg, (sendMessageToOpenAI none (FetchOutcome.reject "Failed to fetch")
        stTwo).rendered = stTwo.rendered ++ [("ai", msg)]) :=
  ⟨by decide, send_failure_frame none (FetchOutcome.reject "Failed to fetch")
    stTwo (by decide)⟩

/-- The successful response of claim C4: HTTP 200 with body
`\x7bchoices: [\x7bmessage: \x7bcontent: x\x7d\x7d]\x7d`. -/
def successResponse (x : String) : HttpResponse :=
  { ok := true, status := 200, bodyText := "",
    json := Except.ok
      { choices := some
          [{ messageContent := some x, deltaContent := none, text := none }],
        body := none, error := none } }

/-- C4 counterexample: with content X = "" the claim fails — `assistantMessage`
is the empty string, which is falsy, so the code takes the no-assistant error
path: nothing is appended to the conversation, nothing is persisted, and an
error bubble is rendered instead of the reply. -/
theorem send_empty_content_counterexample :
    (sendMessageToOpenAI none (FetchOutcome.response (successResponse ""))
        (initialState StoredConv.absent none)).conversation =
      [systemMessage] ∧
    (sendMessageToOpenAI none (FetchOutcome.response (successResponse ""))
        (initialState StoredConv.absent none)).conversation.countP
      (fun m => m.role == "assistant") = 0 ∧
    (sendMessageToOpenAI none (FetchOutcome.response (successResponse ""))
        (initialState StoredConv.absent none)).storedConv =
      StoredConv.absent := by
  decide

/-- C4 (amended): for every non-empty X, a successful response carrying
`choices[0].message.content = X` makes the remote call append exactly one
assistant message with content X to the (trimmed) conversation, persist
exactly that updated conversation, and render the reply once. -/
theorem send_success_appends (workerUrl : Option String) (st : SessionState)
    (x : String) (hx : x ≠ "") :
    (sendMessageToOpenAI workerUrl (FetchOutcome.response (successResponse x))
        st).conversation =
      trimConversation st.conversation ++
        [{ role := "assistant", content := x }] ∧
    (sendMessageToOpenAI workerUrl (FetchOutcome.response (successResponse x))
        st).storedConv =
      StoredConv.arr (trimConversation st.conversation ++
        [{ role := "assistant", content := x }]) ∧
    (sendMessageToOpenAI workerUrl (FetchOutcome.response (successResponse x))
        st).rendered = st.rendered ++ [("ai", x)] := by
  refine ⟨?_, ?_, ?_⟩ <;>
    simp [sendMessageToOpenAI, successResponse, extractAssistant,
      Choice.extract, truthyStr, hx, appendMessage, saveState]

/-- C4 witness: content "X" over the fresh session. -/
theorem send_success_appends_witness :
    ("X" ≠ "") ∧
    ((sendMessageToOpenAI none (FetchOutcome.response (successResponse "X"))
        (initialState StoredConv.absent none)).conversation =
      trimConversation (initialState StoredConv.absent none).conversation ++
        [{ role := "assistant", content := "X" }] ∧
    (sendMessageToOpenAI none (FetchOutcome.response (successResponse "X"))
        (initialState StoredConv.absent none)).storedConv =
      StoredConv.arr
        (trimConversation (initialState StoredConv.absent none).conversation ++
          [{ role := "assistant", content := "X" }]) ∧
    (sendMessageToOpenAI none (FetchOutcome.response (successResponse "X"))
        (initialState StoredConv.absent none)).rendered =
      (initialState StoredConv.absent none).rendered ++ [("ai", "X")]) :=
  ⟨by decide, send_success_appends none (initialState StoredConv.absent none)
    "X" (by decide)⟩

/-- A conversation at the trim bound: the system message and 41 user turns
(one more than the bound — exactly what a completed turn at capacity leaves
behind). -/
def atCapState : SessionState :=
  { conversation := systemMessage :: List.replicate 41 mUser,
    userName := "", storedConv := StoredConv.absent, storedName := none,
    rendered := [] }

/-- C1 counterexample: over a conversation whose non-system part already
exceeds the trim bound, a submit-turn with non-blank input and a failing
remote call shrinks the conversation from 42 to 41 messages — its length does
not increase by at least one. -/
theorem submitTurn_length_counterexample :
    jsTrim "hello" ≠ "" ∧
    atCapState.conversation.length = 42 ∧
    (submitTurn none "hello" (FetchOutcome.reject "Failed to fetch")
      atCapState).conversation.length = 41 := by
  decide

/-- C1 (amended): for every input that is non-empty after trimming, over a
conversation holding exactly one system message and at most 39 non-system
messages (so that the trim bound is not yet reached), submit-turn increases
the conversation's length by at least one; and the first element of the
conversation after the operation has role system. -/
theorem submitTurn_grows (workerUrl : Option String) (input : String)
    (o : FetchOutcome) (st : SessionState) (s : Message)
    (hin : jsTrim input ≠ "")
    (hsys : st.conversation.find? (fun m => m.role == "system") = some s)
    (hone : st.conversation.countP (fun m => m.role == "system") = 1)
    (hk : (st.conversation.filter (fun m => !(m.role == "system"))).length ≤ 39) :
    st.conversation.length + 1 ≤
      (submitTurn workerUrl input o st).conversation.length ∧
    ((submitTurn workerUrl input o st).conversation.head?.map
      (fun m => m.role)) = some "system" := by
  obtain ⟨st4, heq, hconv⟩ := submitTurn_eq workerUrl input o st hin
  have hrole : s.role = "system" := by
    have := List.find?_some hsys
    simpa using this
  have hfind4 : st4.conversation.find? (fun m => m.role == "system") = some s := by
    rw [hconv, List.find?_append, hsys]
    rfl
  have hfilter4 : st4.conversation.filter (fun m => !(m.role == "system")) =
      st.conversation.filter (fun m => !(m.role == "system")) ++
        [{ role := "user", content := jsTrim input }] := by
    rw [hconv, List.filter_append]
    rfl
  have hlen4 : (st4.conversation.filter (fun m => !(m.role == "system"))).length ≤
      MAX_CONVERSATION_MESSAGES := by
    rw [hfilter4, MAX_CONVERSATION_MESSAGES_eq]
    simp
    omega
  have htrim4 := trimConversation_small st4.conversation s hfind4 hlen4
  have hlenst : st.conversation.length =
      1 + (st.conversation.filter (fun m => !(m.role == "system"))).length := by
    have h1 := length_eq_countP_add (fun m => m.role == "system") st.conversation
    rw [hone, List.countP_eq_length_filter] at h1
    exact h1
  cases hf : outcomeFails o with
  | false =>
      obtain ⟨a, ha, hmsg⟩ := send_succ_eq workerUrl o st4 hf
      rw [heq, hmsg]
      constructor
      · dsimp only
        rw [htrim4, hfilter4]
        simp
        omega
      · dsimp only
        rw [htrim4]
        simp [hrole]
  | true =>
      obtain ⟨msg, hmsg⟩ := send_fail_eq workerUrl o st4 hf
      rw [heq, hmsg]
      constructor
      · dsimp only
        rw [htrim4, hfilter4]
        simp
        omega
      · dsimp only
        rw [htrim4]
        simp [hrole]

/-- C1 witness: submitting "hello" with a failing remote call over the fresh
session grows the conversation from one message to two, the system message
staying first. -/
theorem submitTurn_grows_witness :
    jsTrim "hello" ≠ "" ∧
    ((initialState StoredConv.absent none).conversation.find?
      (fun m => m.role == "system") = some systemMessage) ∧
    ((initialState StoredConv.absent none).conversation.countP
      (fun m => m.role == "system") = 1) ∧
    (((initialState StoredConv.absent none).conversation.filter
      (fun m => !(m.role == "system"))).length ≤ 39) ∧
    ((initialState StoredConv.absent none).conversation.length + 1 ≤
      (submitTurn none "hello" (FetchOutcome.reject "x")
        (initialState StoredConv.absent none)).conversation.length ∧
    ((submitTurn none "hello" (FetchOutcome.reject "x")
        (initialState StoredConv.absent none)).conversation.head?.map
      (fun m => m.role)) = some "system") :=
  ⟨by decide, by decide, by decide, by decide,
    submitTurn_grows none "hello" (FetchOutcome.reject "x")
      (initialState StoredConv.absent none) systemMessage
      (by decide) (by decide) (by decide) (by decide)⟩

end LorealChat
